import Mathlib

/-!
Shallow embedding of the Pilot Traders webhook relay server (V1.1.43):
the connection registry (`clients`, `webhookClients`, `legacyClients`),
the WebSocket lifecycle handlers (connection, message, close, error) and
the HTTP alert/status/test routes, translated from the source.

JavaScript `Map`/`Set` values are modelled as association lists / lists in
insertion order; client objects live in an explicit object store (`heap`)
keyed by client id, so that a bucket may keep referencing an object after
it has been removed from the `clients` map, exactly as a JS `Set` keeps a
reference alive.  Timestamps (`Date.now()`) are `Nat` passed explicitly.
-/

namespace PilotRelay

/-- JavaScript truthiness of an optional string field: `null`/absent and the
empty string are falsy. -/
def optTruthy : Option String → Bool
  | none => false
  | some s => s != ""

/-- The `clientObj` literal created in the connection handler of the WebSocket server.
`wsOpen` models `ws.readyState === WebSocket.OPEN`. -/
structure ClientObj where
  wsOpen : Bool
  id : Nat
  connectedAt : Nat
  symbol : Option String
  webhookId : Option String
  isLegacy : Bool
  ignoreUntil : Nat
  deriving Repr, DecidableEq

/-- Global server state: the object store plus the three registry
structures (`clients` map as the list of ids it holds, `webhookClients`
as an association list webhookId -> bucket of client ids, `legacyClients`
as a list of client ids), all in insertion order. -/
structure RelayState where
  heap : List (Nat × ClientObj)
  clients : List Nat
  clientIdCounter : Nat
  webhookClients : List (String × List Nat)
  legacyClients : List Nat
  deriving Repr, DecidableEq

/-- Dereference a client object in the store. -/
def heapGet (h : List (Nat × ClientObj)) (cid : Nat) : Option ClientObj :=
  (h.find? (fun p => p.1 == cid)).map (fun p => p.2)

/-- Mutate the fields of the object with id `cid` in place. -/
def heapSet (h : List (Nat × ClientObj)) (cid : Nat) (f : ClientObj → ClientObj) :
    List (Nat × ClientObj) :=
  h.map (fun p => if p.1 == cid then (p.1, f p.2) else p)

/-- `webhookClients.get(w)`. -/
def bucketGet (t : List (String × List Nat)) (w : String) : Option (List Nat) :=
  (t.find? (fun p => p.1 == w)).map (fun p => p.2)

/-- `webhookClients.set(w, b)`: replace in place if the key exists,
append otherwise (JS `Map` insertion-order semantics). -/
def tableSet (t : List (String × List Nat)) (w : String) (b : List Nat) :
    List (String × List Nat) :=
  if (t.find? (fun p => p.1 == w)).isSome then
    t.map (fun p => if p.1 == w then (w, b) else p)
  else t ++ [(w, b)]

/-- `webhookClients.delete(w)`. -/
def tableDeleteKey (t : List (String × List Nat)) (w : String) :
    List (String × List Nat) :=
  t.filter (fun p => p.1 != w)

/-- `Set.prototype.add`: no duplicates, insertion order kept. -/
def setAdd (l : List Nat) (cid : Nat) : List Nat :=
  if cid ∈ l then l else l ++ [cid]

/-- `Set.prototype.delete` on a set of client objects. -/
def setDelete (l : List Nat) (cid : Nat) : List Nat :=
  l.filter (fun x => x != cid)

/-- The empty registry at process start. -/
def initialState : RelayState :=
  { heap := [], clients := [], clientIdCounter := 0,
    webhookClients := [], legacyClients := [] }

/-- The connection handler of the WebSocket server: assign the next id, build the
client object (with the 5-second connect-time ignore window) and insert
it into the `clients` map. -/
def onConnection (s : RelayState) (now : Nat) : RelayState :=
  let clientId := s.clientIdCounter + 1
  let c : ClientObj :=
    { wsOpen := true, id := clientId, connectedAt := now,
      symbol := none, webhookId := none, isLegacy := false,
      ignoreUntil := now + 5000 }
  { s with heap := s.heap ++ [(clientId, c)],
           clients := s.clients ++ [clientId],
           clientIdCounter := clientId }

/-- Parsed inbound client messages (`data.type` dispatch); `other` covers
every unrecognized or malformed message, which the handler ignores. -/
inductive ClientMsg where
  | register (webhookId : Option String) (legacy : Bool)
  | subscribe (symbol : Option String)
  | ping
  | clearSession
  | other
  deriving Repr, DecidableEq

/-- The per-connection message handler for the connection with id `cid`,
processing one parsed message at time `now`.  Replies (`registered`,
`pong`, `session_cleared`) carry no registry state and are not modelled. -/
def onMessage (s : RelayState) (cid : Nat) (msg : ClientMsg) (now : Nat) :
    RelayState :=
  match msg with
  | .register webhookId legacy =>
    if cid ∈ s.clients then
      if optTruthy webhookId then
        let w := webhookId.getD ""
        let h1 := heapSet s.heap cid
          (fun c => { c with webhookId := webhookId, isLegacy := false })
        let t1 := if (bucketGet s.webhookClients w).isSome then s.webhookClients
                  else s.webhookClients ++ [(w, [])]
        let b := (bucketGet t1 w).getD []
        { s with heap := h1, webhookClients := tableSet t1 w (setAdd b cid) }
      else if legacy then
        let h1 := heapSet s.heap cid (fun c => { c with isLegacy := true, webhookId := none })
        { s with heap := h1, legacyClients := setAdd s.legacyClients cid }
      else s
    else s
  | .subscribe sym =>
    if cid ∈ s.clients then
      { s with heap := heapSet s.heap cid (fun c => { c with symbol := sym }) }
    else s
  | .ping => s
  | .clearSession =>
    if cid ∈ s.clients then
      { s with heap := heapSet s.heap cid (fun c => { c with ignoreUntil := now + 10000 }) }
    else s
  | .other => s

/-- The close handler of a connection: the socket is no longer open, the client
is removed from its current webhook bucket (pruning the bucket when it
ends up empty), from the legacy set, and from the `clients` map. -/
def onClose (s : RelayState) (cid : Nat) : RelayState :=
  let s0 := { s with heap := heapSet s.heap cid (fun c => { c with wsOpen := false }) }
  let s1 :=
    if cid ∈ s0.clients then
      match heapGet s0.heap cid with
      | some client =>
        let s2 :=
          if optTruthy client.webhookId then
            let w := client.webhookId.getD ""
            match bucketGet s0.webhookClients w with
            | some b =>
              let b1 := setDelete b cid
              if b1.length = 0 then
                { s0 with webhookClients := tableDeleteKey s0.webhookClients w }
              else
                { s0 with webhookClients := tableSet s0.webhookClients w b1 }
            | none => s0
          else s0
        { s2 with legacyClients := setDelete s2.legacyClients cid }
      | none => s0
    else s0
  { s1 with clients := s1.clients.filter (fun x => x != cid) }

/-- The error handler of a connection: like `onClose` but the bucket is not
pruned when it becomes empty. -/
def onError (s : RelayState) (cid : Nat) : RelayState :=
  let s0 := { s with heap := heapSet s.heap cid (fun c => { c with wsOpen := false }) }
  let s1 :=
    if cid ∈ s0.clients then
      match heapGet s0.heap cid with
      | some client =>
        let s2 :=
          if optTruthy client.webhookId then
            let w := client.webhookId.getD ""
            match bucketGet s0.webhookClients w with
            | some b =>
              { s0 with webhookClients := tableSet s0.webhookClients w (setDelete b cid) }
            | none => s0
          else s0
        { s2 with legacyClients := setDelete s2.legacyClients cid }
      | none => s0
    else s0
  { s1 with clients := s1.clients.filter (fun x => x != cid) }

/-- An inbound alert payload; only its optional `symbol` field is ever
inspected by the relay. -/
structure Alert where
  symbol : Option String
  deriving Repr, DecidableEq

/-- The JSON body returned by an alert route, plus the list of client ids
whose `ws.send` was invoked, in iteration order. -/
structure DeliveryResult where
  success : Bool
  deliveredTo : Nat
  sent : List Nat
  deriving Repr, DecidableEq

/-- `client.ignoreUntil && Date.now() < client.ignoreUntil`. -/
def inIgnoreWindow (c : ClientObj) (now : Nat) : Bool :=
  c.ignoreUntil != 0 && now < c.ignoreUntil

/-- `POST /webhook/:webhookId/alert`: keyed delivery.  Looks up the
bucket for `w`; absent or empty means a zero-count success.  Otherwise
each client of the bucket is skipped while inside its ignore window and
sent the alert when its socket is open.  The registry is not mutated. -/
def postWebhookAlert (s : RelayState) (w : String) (_alert : Alert) (now : Nat) :
    DeliveryResult × RelayState :=
  match bucketGet s.webhookClients w with
  | none => ({ success := true, deliveredTo := 0, sent := [] }, s)
  | some b =>
    if b.length = 0 then ({ success := true, deliveredTo := 0, sent := [] }, s)
    else
      let sent := b.filter (fun cid =>
        match heapGet s.heap cid with
        | some c => !(inIgnoreWindow c now) && c.wsOpen
        | none => false)
      ({ success := true, deliveredTo := sent.length, sent := sent }, s)

/-- `POST /alert`: legacy delivery to the admin set.  Each legacy client
is skipped while inside its ignore window, skipped when both its symbol
filter and the symbol of the alert are truthy and differ, and sent the alert
when its socket is open. -/
def postAlert (s : RelayState) (alert : Alert) (now : Nat) :
    DeliveryResult × RelayState :=
  let sent := s.legacyClients.filter (fun cid =>
    match heapGet s.heap cid with
    | some c =>
      !(inIgnoreWindow c now) &&
      !(optTruthy c.symbol && optTruthy alert.symbol && c.symbol != alert.symbol) &&
      c.wsOpen
    | none => false)
  ({ success := true, deliveredTo := sent.length, sent := sent }, s)

/-- One element of the `clients` array of the `GET /status` response. -/
structure StatusEntry where
  id : Nat
  connectedAt : Nat
  symbol : Option String
  webhookId : Option String
  isLegacy : Bool
  deriving Repr, DecidableEq

/-- The status-route redaction of a webhook id: when the field is truthy,
its first 8 characters followed by three dots, otherwise null. -/
def redactKey (k : Option String) : Option String :=
  if optTruthy k then some ((k.getD "").take 8 ++ "...") else none

/-- The summary built for one client by the `GET /status` handler. -/
def statusEntry (cid : Nat) (c : ClientObj) : StatusEntry :=
  { id := cid, connectedAt := c.connectedAt, symbol := c.symbol,
    webhookId := redactKey c.webhookId, isLegacy := c.isLegacy }

/-- `GET /status`: the `clients` list of the response, one summary per
entry of the `clients` map, in insertion order. -/
def getStatus (s : RelayState) : List StatusEntry :=
  s.clients.filterMap (fun cid => (heapGet s.heap cid).map (statusEntry cid))

/-- `GET /test`: sends the fixed test alert to every client of the
`clients` map whose socket is open, with no ignore-window, symbol or
routing check, and counts them. -/
def getTest (s : RelayState) : DeliveryResult × RelayState :=
  let sent := s.clients.filter (fun cid =>
    match heapGet s.heap cid with
    | some c => c.wsOpen
    | none => false)
  ({ success := true, deliveredTo := sent.length, sent := sent }, s)

/-! Concrete runs of the handlers, used as counterexamples and witnesses. -/

/-- One client connects at time 0, registers webhook id keyA, then
re-registers with webhook id keyB. -/
def exC1 : RelayState :=
  onMessage (onMessage (onConnection initialState 0) 1 (.register (some "keyA") false) 100)
    1 (.register (some "keyB") false) 200

/-- The run of `exC1` followed by the transport closing. -/
def exC2 : RelayState := onClose exC1 1

/-- One client connects, registers webhook id keyA, then its transport
errors. -/
def exC3 : RelayState :=
  onError (onMessage (onConnection initialState 0) 1 (.register (some "keyA") false) 100) 1

/-- One client connects, registers webhook id k, then subscribes to the
symbol BTC. -/
def exC5 : RelayState :=
  onMessage (onMessage (onConnection initialState 0) 1 (.register (some "k") false) 100)
    1 (.subscribe (some "BTC")) 200

/-- The client object of `exC5` after those three steps. -/
def cC5 : ClientObj :=
  { wsOpen := true, id := 1, connectedAt := 0, symbol := some "BTC",
    webhookId := some "k", isLegacy := false, ignoreUntil := 5000 }

/-- An alert carrying a symbol different from the `exC5` filter. -/
def aC5 : Alert := { symbol := some "ETH" }

/-- One client connects, registers as legacy, then subscribes to the
symbol BTCUSD. -/
def exC6 : RelayState :=
  onMessage (onMessage (onConnection initialState 0) 1 (.register none true) 100)
    1 (.subscribe (some "BTCUSD")) 200

/-- The client object of `exC6` after those three steps. -/
def cC6 : ClientObj :=
  { wsOpen := true, id := 1, connectedAt := 0, symbol := some "BTCUSD",
    webhookId := none, isLegacy := true, ignoreUntil := 5000 }

/-- An alert whose symbol differs from the `exC6` filter. -/
def aC6 : Alert := { symbol := some "ETHUSD" }

/-- One client connects at time 0 and does nothing else. -/
def exC7 : RelayState := onConnection initialState 0

/-- The client object of `exC7` right after connecting. -/
def cC7 : ClientObj :=
  { wsOpen := true, id := 1, connectedAt := 0, symbol := none,
    webhookId := none, isLegacy := false, ignoreUntil := 5000 }

/-- One client connects at time 1000, so its ignore window runs to 6000. -/
def exC8 : RelayState := onConnection initialState 1000

/-- One client connects at time 0 and registers webhook id wk. -/
def exC8w : RelayState :=
  onMessage (onConnection initialState 0) 1 (.register (some "wk") false) 100

/-- The client object of `exC8w` after registration. -/
def cC8 : ClientObj :=
  { wsOpen := true, id := 1, connectedAt := 0, symbol := none,
    webhookId := some "wk", isLegacy := false, ignoreUntil := 5000 }

/-- An alert with no symbol field. -/
def aC8 : Alert := { symbol := none }

/-- One client connects and registers the 6-character webhook id abc123. -/
def exC9 : RelayState :=
  onMessage (onConnection initialState 0) 1 (.register (some "abc123") false) 100

/-- One client connects and registers a 12-character webhook id. -/
def exC9w : RelayState :=
  onMessage (onConnection initialState 0) 1 (.register (some "abcdefghijkl") false) 100

/-- The client object of `exC9w` after registration. -/
def cC9 : ClientObj :=
  { wsOpen := true, id := 1, connectedAt := 0, symbol := none,
    webhookId := some "abcdefghijkl", isLegacy := false, ignoreUntil := 5000 }

/-- One client connects at time 0, registers as legacy and subscribes to
BTC, so that at small times it is inside its ignore window, has a symbol
filter set and is legacy-indexed. -/
def exC10 : RelayState :=
  onMessage (onMessage (onConnection initialState 0) 1 (.register none true) 50)
    1 (.subscribe (some "BTC")) 60

/-- The client object of `exC10` after those three steps. -/
def cC10 : ClientObj :=
  { wsOpen := true, id := 1, connectedAt := 0, symbol := some "BTC",
    webhookId := none, isLegacy := true, ignoreUntil := 5000 }

/-! Helper lemmas about the object store. -/

/-- Updating an object in the store changes exactly that id. -/
theorem heapGet_heapSet (h : List (Nat × ClientObj)) (cid x : Nat) (f : ClientObj → ClientObj) :
    heapGet (heapSet h cid f) x = if x = cid then (heapGet h cid).map f else heapGet h x := by
  induction h with
  | nil => simp [heapGet, heapSet]
  | cons p t ih =>
    obtain ⟨k, c⟩ := p
    by_cases hx : x = cid
    · subst hx
      by_cases hk : k = x <;> simp_all [heapGet, heapSet, List.find?_cons]
    · by_cases hk : k = x <;> by_cases hkc : k = cid <;>
        simp_all [heapGet, heapSet, List.find?_cons]

/-- Appending an object under a fresh id makes it reachable under that id. -/
theorem heapGet_append_fresh (h : List (Nat × ClientObj)) (k : Nat) (c : ClientObj)
    (hf : heapGet h k = none) : heapGet (h ++ [(k, c)]) k = some c := by
  unfold heapGet at *
  rw [List.find?_append]
  have h2 : List.find? (fun p => p.1 == k) h = none := by
    cases hfind : List.find? (fun p => p.1 == k) h with
    | none => rfl
    | some v => rw [hfind] at hf; simp at hf
  rw [h2]
  simp [List.find?]

/-! The claims. -/

/-- Claim C1: the claim states that processing a register message for a
connection previously bound to a different key first removes it from its
previous index bucket, so no connection is ever present in two buckets.
The code does not do this: in the run `exC1` (register keyA, then
register keyB) the connection ends up in the buckets of both keys
simultaneously. -/
theorem C1_register_double_indexes :
    bucketGet exC1.webhookClients "keyA" = some [1] ∧
    bucketGet exC1.webhookClients "keyB" = some [1] := by decide

/-- Claim C2: the claim states that every connection present in any index
is present in the primary map, and that removal from the primary map
removes it from every index.  The code violates this: in the run `exC2`
(register keyA, register keyB, then close) the close handler only removes
the connection from the bucket of its current key, so after it the
primary `clients` map is empty while the keyA bucket still indexes the
connection. -/
theorem C2_close_leaves_stale_index :
    exC2.clients = [] ∧ bucketGet exC2.webhookClients "keyA" = some [1] := by decide

/-- Claim C3: the claim states that whenever the last connection leaves a
bucket - including by unregistration on transport error - the bucket is
removed from the keyed table.  The error handler does not prune: in the
run `exC3` (register keyA, then transport error) the keyA bucket remains
in the table empty. -/
theorem C3_error_leaves_empty_bucket :
    exC3.clients = [] ∧ bucketGet exC3.webhookClients "keyA" = some [] := by decide

/-- Claim C4: for a routing key with no connection bound to it (bucket
absent or empty), keyed delivery reports success with a delivery count of
0, sends to nobody, and leaves the registry state unchanged. -/
theorem C4_keyed_alert_no_clients (s : RelayState) (w : String) (a : Alert) (now : Nat)
    (h : bucketGet s.webhookClients w = none ∨ bucketGet s.webhookClients w = some []) :
    postWebhookAlert s w a now = ({ success := true, deliveredTo := 0, sent := [] }, s) := by
  rcases h with h | h <;> simp [postWebhookAlert, h]

theorem C4_witness :
    (bucketGet initialState.webhookClients "nokey" = none ∨
      bucketGet initialState.webhookClients "nokey" = some []) ∧
    postWebhookAlert initialState "nokey" { symbol := none } 0 =
      ({ success := true, deliveredTo := 0, sent := [] }, initialState) :=
  ⟨Or.inl rfl, C4_keyed_alert_no_clients initialState "nokey" { symbol := none } 0 (Or.inl rfl)⟩

/-- Claim C5: the symbol filter is consulted only on the legacy delivery
path.  On the keyed path, a connection is sent the alert exactly when it
is in the bucket of the key, outside its ignore window and its transport
is open - its symbol filter plays no role.  On the legacy path, a
connection whose filter is set (nonempty) and differs from the nonempty
symbol of the alert is skipped. -/
theorem C5_symbol_filter_only_legacy
    (s : RelayState) (w : String) (a : Alert) (now : Nat) (cid : Nat) (c : ClientObj)
    (hc : heapGet s.heap cid = some c) :
    (cid ∈ (postWebhookAlert s w a now).1.sent ↔
       (∃ b, bucketGet s.webhookClients w = some b ∧ cid ∈ b) ∧
       inIgnoreWindow c now = false ∧ c.wsOpen = true) ∧
    (∀ f g, c.symbol = some f → a.symbol = some g → f ≠ "" → g ≠ "" → f ≠ g →
       cid ∉ (postAlert s a now).1.sent) := by
  constructor
  · cases hb : bucketGet s.webhookClients w with
    | none => simp [postWebhookAlert, hb]
    | some b =>
      by_cases hb0 : b.length = 0
      · have hbe : b = [] := List.length_eq_zero.mp hb0
        subst hbe
        simp [postWebhookAlert, hb]
      · simp only [postWebhookAlert, hb, if_neg hb0]
        simp [List.mem_filter, hc, Bool.not_eq_true']
  · intro f g hf hg hf0 hg0 hfg hmem
    simp [postAlert, List.mem_filter, hc] at hmem
    obtain ⟨-, hpred⟩ := hmem
    simp [optTruthy, hf, hg, hf0, hg0, hfg] at hpred

theorem C5_witness :
    heapGet exC5.heap 1 = some cC5 ∧
    ((1 ∈ (postWebhookAlert exC5 "k" aC5 9000).1.sent ↔
        (∃ b, bucketGet exC5.webhookClients "k" = some b ∧ 1 ∈ b) ∧
        inIgnoreWindow cC5 9000 = false ∧ cC5.wsOpen = true) ∧
     (∀ f g, cC5.symbol = some f → aC5.symbol = some g → f ≠ "" → g ≠ "" → f ≠ g →
        1 ∉ (postAlert exC5 aC5 9000).1.sent)) :=
  ⟨by decide, C5_symbol_filter_only_legacy exC5 "k" aC5 9000 1 cC5 (by decide)⟩

/-- Claim C6 counterexample: the claim states that while a symbol filter
is set, an alert carrying no symbol field is not admitted.  In the run
`exC6` the legacy connection has filter BTCUSD, yet the legacy route
delivers an alert with no symbol to it. -/
theorem C6_counterexample :
    (heapGet exC6.heap 1).map ClientObj.symbol = some (some "BTCUSD") ∧
    1 ∈ exC6.legacyClients ∧
    (postAlert exC6 { symbol := none } 9000).1.sent = [1] ∧
    (postAlert exC6 { symbol := none } 9000).1.deliveredTo = 1 := by decide

/-- Claim C6 as amended: for a legacy connection whose symbol filter is a
nonempty string, outside its ignore window and with an open transport,
the alert is admitted exactly when every nonempty symbol it carries
equals the filter (case-sensitive): an alert with a differing nonempty
symbol is skipped, while an alert carrying no symbol (or an empty one) is
admitted despite the filter. -/
theorem C6_symbol_filter_admission
    (s : RelayState) (a : Alert) (now : Nat) (cid : Nat) (c : ClientObj) (f : String)
    (hc : heapGet s.heap cid = some c) (hf : c.symbol = some f) (hf0 : f ≠ "")
    (hleg : cid ∈ s.legacyClients) (hw : inIgnoreWindow c now = false)
    (hopen : c.wsOpen = true) :
    cid ∈ (postAlert s a now).1.sent ↔ (∀ g, a.symbol = some g → g ≠ "" → g = f) := by
  simp [postAlert, List.mem_filter, hleg, hc, hw, hopen, hf, optTruthy]
  cases hg : a.symbol with
  | none => simp
  | some g =>
    by_cases hg0 : g = ""
    · subst hg0; simp [hf0]
    · simp [hg0, hf0]
      exact eq_comm

theorem C6_witness :
    (heapGet exC6.heap 1 = some cC6 ∧ cC6.symbol = some "BTCUSD" ∧
     1 ∈ exC6.legacyClients ∧ inIgnoreWindow cC6 9000 = false ∧ cC6.wsOpen = true) ∧
    (1 ∈ (postAlert exC6 aC6 9000).1.sent ↔
      (∀ g, aC6.symbol = some g → g ≠ "" → g = "BTCUSD")) :=
  ⟨⟨by decide, by decide, by decide, by decide, by decide⟩,
   C6_symbol_filter_admission exC6 aC6 9000 1 cC6 "BTCUSD" (by decide) (by decide)
     (by decide) (by decide) (by decide) (by decide)⟩

/-- Claim C7: a clear-session message never moves the ignore deadline of
a connection backward.  If the current deadline was produced at some time
t0 (either the connect-time t0 + 5000 or a clear-session t0 + 10000) and
the clock is non-decreasing (t0 ≤ t1 ≤ t2), then a clear-session at t1
sets the deadline to t1 + 10000, which is at least the previous deadline,
and a second clear-session at t2 yields t2 + 10000, the later of the two
deadlines. -/
theorem C7_clear_session_monotone
    (s : RelayState) (cid : Nat) (c : ClientObj) (t0 t1 t2 : Nat)
    (hc : heapGet s.heap cid = some c) (hm : cid ∈ s.clients)
    (h0 : c.ignoreUntil = t0 + 5000 ∨ c.ignoreUntil = t0 + 10000)
    (h01 : t0 ≤ t1) (h12 : t1 ≤ t2) :
    heapGet (onMessage s cid .clearSession t1).heap cid =
      some { c with ignoreUntil := t1 + 10000 } ∧
    c.ignoreUntil ≤ t1 + 10000 ∧
    heapGet (onMessage (onMessage s cid .clearSession t1) cid .clearSession t2).heap cid =
      some { c with ignoreUntil := t2 + 10000 } ∧
    t2 + 10000 = max (t1 + 10000) (t2 + 10000) := by
  have h1 : onMessage s cid .clearSession t1 =
      { s with heap := heapSet s.heap cid (fun x => { x with ignoreUntil := t1 + 10000 }) } := by
    simp [onMessage, hm]
  have hg1 : heapGet (onMessage s cid .clearSession t1).heap cid =
      some { c with ignoreUntil := t1 + 10000 } := by
    rw [h1]; simp [heapGet_heapSet, hc]
  refine ⟨hg1, ?_, ?_, ?_⟩
  · rcases h0 with h | h <;> omega
  · have h2 : onMessage (onMessage s cid .clearSession t1) cid .clearSession t2 =
        { (onMessage s cid .clearSession t1) with
            heap := heapSet (onMessage s cid .clearSession t1).heap cid
              (fun x => { x with ignoreUntil := t2 + 10000 }) } := by
      rw [h1]; simp [onMessage, hm]
    rw [h2]; simp [heapGet_heapSet, hg1]
  · exact (Nat.max_eq_right (by omega)).symm

theorem C7_witness :
    (heapGet exC7.heap 1 = some cC7 ∧ 1 ∈ exC7.clients ∧
     (cC7.ignoreUntil = 0 + 5000 ∨ cC7.ignoreUntil = 0 + 10000)) ∧
    (heapGet (onMessage exC7 1 .clearSession 100).heap 1 =
       some { cC7 with ignoreUntil := 100 + 10000 } ∧
     cC7.ignoreUntil ≤ 100 + 10000 ∧
     heapGet (onMessage (onMessage exC7 1 .clearSession 100) 1 .clearSession 250).heap 1 =
       some { cC7 with ignoreUntil := 250 + 10000 } ∧
     250 + 10000 = max (100 + 10000) (250 + 10000)) :=
  ⟨⟨by decide, by decide, Or.inl (by decide)⟩,
   C7_clear_session_monotone exC7 1 cC7 0 100 250 (by decide) (by decide)
     (Or.inl (by decide)) (by decide) (by decide)⟩

/-- Claim C8 counterexample: the claim states that while the current time
is before the ignore deadline of a connection, no delivery operation of
the system sends any alert to it.  The test route is a delivery operation
that ignores the window: in `exC8` the connection connected at 1000 has
deadline 6000, and at instant 1500 (before the deadline) the test route
still sends its alert to the connection and counts it. -/
theorem C8_counterexample :
    (heapGet exC8.heap 1).map ClientObj.ignoreUntil = some 6000 ∧
    (1500 : Nat) < 6000 ∧
    (getTest exC8).1.sent = [1] ∧ (getTest exC8).1.deliveredTo = 1 := by decide

/-- Claim C8 as amended: every new connection starts with an ignore
window reaching 5000 ms past its connect time; while the current time is
before the deadline, neither the keyed nor the legacy alert route sends
to the connection (it is skipped and not counted), regardless of routing
match or symbol filter; once the deadline has passed, an
otherwise-matching alert is delivered on either route.  The test route is
exempt from the window (claim C10). -/
theorem C8_ignore_window_guards_alert_routes
    (s : RelayState) (cid : Nat) (c : ClientObj) (w : String) (b : List Nat)
    (a : Alert) (now tconn : Nat)
    (hc : heapGet s.heap cid = some c)
    (hb : bucketGet s.webhookClients w = some b)
    (hfresh : heapGet s.heap (s.clientIdCounter + 1) = none) :
    (heapGet (onConnection s tconn).heap (s.clientIdCounter + 1)).map ClientObj.ignoreUntil =
      some (tconn + 5000) ∧
    (now < c.ignoreUntil →
      cid ∉ (postWebhookAlert s w a now).1.sent ∧ cid ∉ (postAlert s a now).1.sent) ∧
    (c.ignoreUntil ≤ now → c.wsOpen = true → cid ∈ b →
      cid ∈ (postWebhookAlert s w a now).1.sent) ∧
    (c.ignoreUntil ≤ now → c.wsOpen = true → cid ∈ s.legacyClients →
      (optTruthy c.symbol && optTruthy a.symbol && (c.symbol != a.symbol)) = false →
      cid ∈ (postAlert s a now).1.sent) := by
  refine ⟨?_, ?_, ?_, ?_⟩
  · show (heapGet (s.heap ++ [(s.clientIdCounter + 1, _)]) (s.clientIdCounter + 1)).map
      ClientObj.ignoreUntil = some (tconn + 5000)
    rw [heapGet_append_fresh _ _ _ hfresh]
    rfl
  · intro hlt
    have hwin : inIgnoreWindow c now = true := by
      simp [inIgnoreWindow]; omega
    constructor
    · by_cases hb0 : b = []
      · simp [postWebhookAlert, hb, hb0]
      · simp [postWebhookAlert, hb, hb0, List.mem_filter, hc, hwin]
    · simp [postAlert, List.mem_filter, hc, hwin]
  · intro h1 h2 h3
    have hwin : inIgnoreWindow c now = false := by
      simp [inIgnoreWindow]; omega
    have hbne : ¬ b = [] := by
      intro hh
      rw [hh] at h3
      exact absurd h3 (List.not_mem_nil cid)
    simp [postWebhookAlert, hb, hbne, List.mem_filter, hc, hwin, h2, h3]
  · intro h1 h2 h3 h4
    have hwin : inIgnoreWindow c now = false := by
      simp [inIgnoreWindow]; omega
    simp [postAlert, List.mem_filter, hc, hwin, h2, h3]
    have h5 := (by simpa [Bool.and_eq_false_iff] using h4 :
      optTruthy c.symbol = true → optTruthy a.symbol = true → c.symbol = a.symbol)
    by_cases hcs : optTruthy c.symbol = true
    · by_cases has : optTruthy a.symbol = true
      · exact Or.inr (h5 hcs has)
      · exact Or.inl (Or.inr (by simpa using has))
    · exact Or.inl (Or.inl (by simpa using hcs))

theorem C8_witness :
    (heapGet exC8w.heap 1 = some cC8 ∧
     bucketGet exC8w.webhookClients "wk" = some [1] ∧
     heapGet exC8w.heap (exC8w.clientIdCounter + 1) = none) ∧
    ((heapGet (onConnection exC8w 77).heap (exC8w.clientIdCounter + 1)).map
        ClientObj.ignoreUntil = some (77 + 5000) ∧
     (9000 < cC8.ignoreUntil →
       1 ∉ (postWebhookAlert exC8w "wk" aC8 9000).1.sent ∧
       1 ∉ (postAlert exC8w aC8 9000).1.sent) ∧
     (cC8.ignoreUntil ≤ 9000 → cC8.wsOpen = true → 1 ∈ [1] →
       1 ∈ (postWebhookAlert exC8w "wk" aC8 9000).1.sent) ∧
     (cC8.ignoreUntil ≤ 9000 → cC8.wsOpen = true → 1 ∈ exC8w.legacyClients →
       (optTruthy cC8.symbol && optTruthy aC8.symbol && (cC8.symbol != aC8.symbol)) = false →
       1 ∈ (postAlert exC8w aC8 9000).1.sent)) :=
  ⟨⟨by decide, by decide, by decide⟩,
   C8_ignore_window_guards_alert_routes exC8w 1 cC8 "wk" [1] aC8 9000 77
     (by decide) (by decide) (by decide)⟩

/-- Claim C9 counterexample: the claim states that the full routing key
string never appears in the snapshot output.  The redaction keeps the
first 8 characters, so for the 6-character key abc123 the status listing
shows abc123 followed by three dots: the first 6 characters of the
displayed field are exactly the full key. -/
theorem C9_counterexample :
    getStatus exC9 =
      [{ id := 1, connectedAt := 0, symbol := none,
         webhookId := some "abc123...", isLegacy := false }] ∧
    "abc123...".take 6 = "abc123" := by decide

/-- Claim C9 as amended: the status snapshot exposes, per connection,
only its id, connect time, symbol filter, legacy flag and a truncated
routing-key field equal to the first 8 characters of the key followed by
three dots (null when no key is set), so characters of the key beyond the
first 8 never appear - but a key of at most 8 characters is revealed
whole.  The transport handle is never exposed: the snapshot is unchanged
under any change of the transport state of a connection. -/
theorem C9_status_redacts_key
    (s : RelayState) (cid : Nat) (c : ClientObj)
    (hc : heapGet s.heap cid = some c) (hm : cid ∈ s.clients) :
    statusEntry cid c ∈ getStatus s ∧
    (statusEntry cid c).webhookId = redactKey c.webhookId ∧
    (∀ k, c.webhookId = some k → k ≠ "" →
       (statusEntry cid c).webhookId = some (k.take 8 ++ "...")) ∧
    (∀ bo : Bool, getStatus
        { s with heap := heapSet s.heap cid (fun x => { x with wsOpen := bo }) } =
      getStatus s) := by
  refine ⟨?_, rfl, ?_, ?_⟩
  · simp only [getStatus, List.mem_filterMap]
    exact ⟨cid, hm, by simp [hc]⟩
  · intro k hk hk0
    simp [statusEntry, redactKey, hk, optTruthy, hk0]
  · intro bo
    unfold getStatus
    apply List.filterMap_congr
    intro x hx
    rw [heapGet_heapSet]
    by_cases hxc : x = cid
    · subst hxc; simp [hc, statusEntry]
    · simp [hxc]

theorem C9_witness :
    (heapGet exC9w.heap 1 = some cC9 ∧ 1 ∈ exC9w.clients) ∧
    (statusEntry 1 cC9 ∈ getStatus exC9w ∧
     (statusEntry 1 cC9).webhookId = redactKey cC9.webhookId ∧
     (∀ k, cC9.webhookId = some k → k ≠ "" →
        (statusEntry 1 cC9).webhookId = some (k.take 8 ++ "...")) ∧
     (∀ bo : Bool, getStatus
         { exC9w with heap := heapSet exC9w.heap 1 (fun x => { x with wsOpen := bo }) } =
       getStatus exC9w)) :=
  ⟨⟨by decide, by decide⟩, C9_status_redacts_key exC9w 1 cC9 (by decide) (by decide)⟩

/-- Claim C10: the test route delivers its test alert to exactly the
connections of the primary map whose transport is open - the ignore
window, the symbol filter and any keyed or legacy binding play no role -
and counts each delivery; the registry is left unchanged. -/
theorem C10_test_bypasses_checks
    (s : RelayState) (cid : Nat) (c : ClientObj)
    (hc : heapGet s.heap cid = some c) :
    (cid ∈ (getTest s).1.sent ↔ cid ∈ s.clients ∧ c.wsOpen = true) ∧
    (getTest s).1.deliveredTo = (getTest s).1.sent.length ∧
    (getTest s).2 = s := by
  refine ⟨?_, rfl, rfl⟩
  simp [getTest, List.mem_filter, hc]

theorem C10_witness :
    (heapGet exC10.heap 1 = some cC10 ∧ 1 ∈ exC10.legacyClients ∧
     cC10.symbol = some "BTC") ∧
    ((1 ∈ (getTest exC10).1.sent ↔ 1 ∈ exC10.clients ∧ cC10.wsOpen = true) ∧
     (getTest exC10).1.deliveredTo = (getTest exC10).1.sent.length ∧
     (getTest exC10).2 = exC10) :=
  ⟨⟨by decide, by decide, by decide⟩, C10_test_bypasses_checks exC10 1 cC10 (by decide)⟩

end PilotRelay
